import Mathlib

/-!
Shallow embedding of `EmulatedVolume.cpp` (mount/unmount lifecycle of the
per-user emulated storage volume) and proofs about the claims of its
specification.

The embedding is a direct pure translation of the source file:

* `Volume` models the `EmulatedVolume` member state (plus the fields of the
  `VolumeBase` bookkeeping it reads and writes: mount flags, mount user id,
  path, internal path, registered mount callback).
* `Env` models the external collaborators (`fs_prepare_dir`, `BindMount`,
  `UnmountTree`, `MountUserFuse`, `UnmountUserFuse`, `GetDevice`, `fork`,
  the mount callback) as deterministic oracles.
* `World` is the abstract mount table restricted to the entities this volume
  owns: the four sdcardfs views, the per-user FUSE bridge, and the two bind
  mounts.  Each successful mounting/unmounting operation of the embedding
  updates it.
* `Event` records every externally visible call, in program order, so that
  ordering claims can be stated over traces.

Machine integers: `status_t` values are `Int` (0 = OK, negative errno on
failure); user ids are `Int`; flags are a `Nat` bit mask.
-/

namespace Vold

/-- `status_t`: 0 is `OK`, failures are negative errno values. -/
abbrev Status := Int

def OK : Status := 0

/-- `EIO` errno value. -/
def EIO : Int := 5

/-- `ETIMEDOUT` errno value. -/
def ETIMEDOUT : Int := 110

/-- Modelled from the spec: the volume base class (outside this file) stores
mount flags as a bit mask with a "primary" bit and a "visible" bit
(`MountFlags::kPrimary`, `MountFlags::kVisible`). -/
def kPrimary : Nat := 1

/-- Modelled from the spec: the "visible" mount-flag bit. -/
def kVisible : Nat := 2

/-- `kSdcardFsPath`: path of the legacy-overlay (sdcardfs) driver binary. -/
def kSdcardFsPath : String := "/system/bin/sdcard"

/-- Member state of one `EmulatedVolume` instance, together with the
`VolumeBase` bookkeeping fields it uses (`getMountFlags`, `getMountUserId`,
`getPath`/`setPath`, `getInternalPath`/`setInternalPath`,
`getMountCallback`). -/
structure Volume where
  mRawPath : String
  mLabel : String
  mFuseMounted : Bool
  mUseSdcardFs : Bool
  mSdcardFsDefault : String := ""
  mSdcardFsRead : String := ""
  mSdcardFsWrite : String := ""
  mSdcardFsFull : String := ""
  mountFlags : Nat := 0
  mountUserId : Int := 0
  path : String := ""
  internalPath : String := ""
  hasCallback : Bool := false
  deriving DecidableEq, Repr

/-- The constructor `EmulatedVolume(rawPath, userId)`: label is the fixed
literal "emulated", nothing mounted yet.  (`mUseSdcardFs` is feature
detection, passed in here as an oracle result.) -/
def emulatedVolume (rawPath : String) (userId : Int) (useSdcardFs : Bool) : Volume :=
  { mRawPath := rawPath
    mLabel := "emulated"
    mFuseMounted := false
    mUseSdcardFs := useSdcardFs
    mountUserId := userId }

/-- The constructor `EmulatedVolume(rawPath, device, fsUuid, userId)`: label
is the filesystem UUID. -/
def emulatedVolumeUuid (rawPath fsUuid : String) (userId : Int) (useSdcardFs : Bool) : Volume :=
  { mRawPath := rawPath
    mLabel := fsUuid
    mFuseMounted := false
    mUseSdcardFs := useSdcardFs
    mountUserId := userId }

/-- `EmulatedVolume::getLabel`: report primary storage as "emulated"
regardless of the stored label, otherwise the stored label. -/
def getLabel (v : Volume) : String :=
  if v.mountFlags &&& kPrimary ≠ 0 then "emulated" else v.mLabel

/-- Abstract mount table, restricted to the entities this volume manages:
the four sdcardfs views (as one unit, they are mounted and unmounted
together), the per-user FUSE bridge, and the two bind mounts. -/
structure World where
  viewsMounted : Bool
  bridgeMounted : Bool
  primaryBind : Bool
  installerBind : Bool
  deriving DecidableEq, Repr

/-- The empty mount table: nothing of this volume is mounted. -/
def World.empty : World :=
  { viewsMounted := false, bridgeMounted := false, primaryBind := false, installerBind := false }

/-- Deterministic oracles for the external collaborators called by
`EmulatedVolume.cpp`. -/
structure Env where
  /-- `access(source, F_OK) == 0` : does the bind-mount source exist. -/
  accessOk : String → Bool
  /-- `fs_prepare_dir(path, ...) == 0`. -/
  prepareDirOk : String → Bool
  /-- `errno` after a failed `fs_prepare_dir`. -/
  prepareErrno : Int
  /-- Return status of `BindMount(source, target)`. -/
  bindMountStatus : String → String → Status
  /-- Return status of `UnmountTree(target)`. -/
  unmountTreeStatus : String → Status
  /-- `base::GetBoolProperty(kPropFuse, false)`. -/
  propFuse : Bool
  /-- Whether `fork()` returns -1. -/
  forkFails : Bool
  /-- `errno` after a failed `fork`. -/
  forkErrno : Int
  /-- `GetDevice(mSdcardFsFull)` on its n-th call (call 0 records `before`). -/
  deviceIdentity : Nat → Nat
  /-- Result of `MountUserFuse` (0 on success, positive errno otherwise). -/
  mountUserFuseResult : Int
  /-- The `is_ready` flag reported by the registered mount callback. -/
  callbackReady : Bool
  /-- Return status of `UnmountUserFuse`. -/
  unmountUserFuseStatus : Status
  /-- `errno` after a failed `UnmountUserFuse`. -/
  unmountUserFuseErrno : Int

/-- Externally visible calls, in program order. -/
inductive Event where
  | killProcs (path : String)
  | prepareDir (path : String) (mode uid gid : Nat)
  | spawnSdcardFs (argv : List String)
  | reapSdcardFs
  | mountUserFuse (userId : Int) (internalPath label : String)
  | callbackChecking (path internalPath : String)
  | fdReset
  | bindMount (source target : String)
  | unmountTree (target : String)
  | unmountUserFuse (userId : Int) (internalPath label : String)
  | forceUnmount (path : String)
  | rmdir (path : String)
  deriving DecidableEq, Repr

/-- `StringPrintf("/mnt/runtime/default/%s/%d/Android", label, userId)` or
`StringPrintf("/%s/%d/Android", mRawPath, userId)`: the source of the
primary ("Android") bind mount (`mountFuseBindMounts`). -/
def androidSourcePath (v : Volume) : String :=
  if v.mUseSdcardFs then
    "/mnt/runtime/default/" ++ getLabel v ++ "/" ++ toString v.mountUserId ++ "/Android"
  else
    "/" ++ v.mRawPath ++ "/" ++ toString v.mountUserId ++ "/Android"

/-- `StringPrintf("/mnt/user/%d/%s/%d/Android", userId, label, userId)`:
the target of the primary bind mount. -/
def androidTargetPath (v : Volume) : String :=
  "/mnt/user/" ++ toString v.mountUserId ++ "/" ++ getLabel v ++ "/" ++
    toString v.mountUserId ++ "/Android"

/-- `StringPrintf("/mnt/runtime/write/%s/%d/Android/obb", label, userId)`:
the source of the installer bind mount. -/
def installerSourcePath (v : Volume) : String :=
  "/mnt/runtime/write/" ++ getLabel v ++ "/" ++ toString v.mountUserId ++ "/Android/obb"

/-- `StringPrintf("/mnt/installer/%d/%s/%d/Android/obb", userId, label, userId)`:
the target of the installer bind mount. -/
def installerTargetPath (v : Volume) : String :=
  "/mnt/installer/" ++ toString v.mountUserId ++ "/" ++ getLabel v ++ "/" ++
    toString v.mountUserId ++ "/Android/obb"

/-- The `execl` argument vector of the sdcardfs driver child process, after
the duplicated program path (`argv[0]`). -/
def sdcardArgs (rawPath label : String) : List String :=
  ["-u", "1023", "-g", "1023", "-m", "-w", "-G", "-i", "-o", rawPath, label]

/-- `doFuseBindMount(source, target)`: create the source directory on the
lower filesystem if absent, then bind mount it on the target.  Returns the
status and the trace of external calls. -/
def doFuseBindMount (env : Env) (source target : String) : Status × List Event :=
  if ¬ env.accessOk source then
    if ¬ env.prepareDirOk source then
      (-env.prepareErrno, [Event.prepareDir source 505 1023 1023])
    else
      (env.bindMountStatus source target,
        [Event.prepareDir source 505 1023 1023, Event.bindMount source target])
  else
    (env.bindMountStatus source target, [Event.bindMount source target])

/-- `EmulatedVolume::mountFuseBindMounts`: the primary ("Android") bind
mount, then — only on sdcardfs devices — the installer (OBB) bind mount. -/
def mountFuseBindMounts (env : Env) (v : Volume) (w : World) : Status × World × List Event :=
  let r1 := doFuseBindMount env (androidSourcePath v) (androidTargetPath v)
  if r1.1 ≠ OK then
    (r1.1, w, r1.2)
  else
    let w1 : World := { w with primaryBind := true }
    if ¬ v.mUseSdcardFs then
      (OK, w1, r1.2)
    else
      let r2 := doFuseBindMount env (installerSourcePath v) (installerTargetPath v)
      if r2.1 ≠ OK then
        (r2.1, w1, r1.2 ++ r2.2)
      else
        (OK, { w1 with installerBind := true }, r1.2 ++ r2.2)

/-- `EmulatedVolume::unmountFuseBindMounts`: tear down the installer bind
mount (sdcardfs only, best-effort), then the primary bind mount; the status
of the primary teardown is the returned status. -/
def unmountFuseBindMounts (env : Env) (v : Volume) (w : World) : Status × World × List Event :=
  let instEvs : List Event :=
    if v.mUseSdcardFs then [Event.unmountTree (installerTargetPath v)] else []
  let w1 : World :=
    if v.mUseSdcardFs ∧ env.unmountTreeStatus (installerTargetPath v) = OK then
      { w with installerBind := false }
    else w
  let st := env.unmountTreeStatus (androidTargetPath v)
  let w2 : World := if st = OK then { w1 with primaryBind := false } else w1
  (st, w2, instEvs ++ [Event.unmountTree (androidTargetPath v)])

/-- Tail of `EmulatedVolume::doUnmount` after the FUSE section: only user 0
on an sdcardfs build force-unmounts the four views, removes their
directories and clears the stored paths. -/
def doUnmountSdcard (v : Volume) (w : World) (evs : List Event) :
    Status × Volume × World × List Event :=
  if v.mountUserId ≠ 0 ∨ v.mUseSdcardFs = false then
    (OK, v, w, evs)
  else
    let evs := evs ++
      [Event.forceUnmount v.mSdcardFsDefault, Event.forceUnmount v.mSdcardFsRead,
       Event.forceUnmount v.mSdcardFsWrite, Event.forceUnmount v.mSdcardFsFull,
       Event.rmdir v.mSdcardFsDefault, Event.rmdir v.mSdcardFsRead,
       Event.rmdir v.mSdcardFsWrite, Event.rmdir v.mSdcardFsFull]
    let w : World := { w with viewsMounted := false }
    let v : Volume := { v with
      mSdcardFsDefault := "", mSdcardFsRead := "", mSdcardFsWrite := "", mSdcardFsFull := "" }
    (OK, v, w, evs)

/-- `EmulatedVolume::doUnmount`: kill processes under the (per-user, if the
bridge is mounted) path, then tear down bind mounts and stop the bridge
(aborting on bridge-stop failure), then the sdcardfs tail. -/
def doUnmount (env : Env) (v : Volume) (w : World) : Status × Volume × World × List Event :=
  let killPath :=
    if v.mFuseMounted then v.path ++ "/" ++ toString v.mountUserId else v.path
  let evs : List Event := [Event.killProcs killPath]
  if v.mFuseMounted then
    let label := getLabel v
    let rb := unmountFuseBindMounts env v w
    let evs := evs ++ rb.2.2 ++ [Event.unmountUserFuse v.mountUserId v.internalPath label]
    if env.unmountUserFuseStatus ≠ OK then
      (-env.unmountUserFuseErrno, v, rb.2.1, evs)
    else
      doUnmountSdcard { v with mFuseMounted := false }
        { rb.2.1 with bridgeMounted := false } evs
  else
    doUnmountSdcard v w evs

/-- One step of the `while (before == GetDevice(mSdcardFsFull))` spin-up
loop: argument `k` is the number of 50ms sleeps performed so far; the n-th
device query is `dev n` (query 0 recorded `before`).  `ready k` means the
device identity changed after `k` sleeps; `timedOut s` means the elapsed
wait `50 * s` ms exceeded 5000 ms. -/
inductive WaitResult where
  | ready (sleeps : Nat)
  | timedOut (sleeps : Nat)
  deriving DecidableEq, Repr

def sdcardWait (dev : Nat → Nat) (before : Nat) (k : Nat) : WaitResult :=
  if dev (k + 1) = before then
    if 50 * (k + 1) > 5000 then WaitResult.timedOut (k + 1)
    else sdcardWait dev before (k + 1)
  else WaitResult.ready k
termination_by 101 - k
decreasing_by
  simp_wf
  omega

/-- The `if (isFuse && isVisible)` block of `EmulatedVolume::doMount`:
mount the per-user FUSE bridge, run the readiness callback, establish the
bind mounts, rolling back through `doUnmount` on failure. -/
def doMountFuse (env : Env) (v : Volume) (w : World) (evs : List Event) :
    Status × Volume × World × List Event :=
  let label := getLabel v
  if env.propFuse = true ∧ v.mountFlags &&& kVisible ≠ 0 then
    let evs := evs ++ [Event.mountUserFuse v.mountUserId v.internalPath label]
    if env.mountUserFuseResult ≠ 0 then
      (-env.mountUserFuseResult, v, w, evs)
    else
      let v : Volume := { v with mFuseMounted := true }
      let w : World := { w with bridgeMounted := true }
      let bindStep : List Event → Status × Volume × World × List Event := fun evs =>
        let rm := mountFuseBindMounts env v w
        if rm.1 ≠ OK then
          let ru := doUnmount env v rm.2.1
          (rm.1, ru.2.1, ru.2.2.1, evs ++ rm.2.2 ++ [Event.fdReset] ++ ru.2.2.2)
        else
          (rm.1, v, rm.2.1, evs ++ rm.2.2)
      if v.hasCallback then
        let evs := evs ++ [Event.callbackChecking v.path v.internalPath]
        if env.callbackReady = false then
          let ru := doUnmount env v w
          (- EIO, ru.2.1, ru.2.2.1, evs ++ [Event.fdReset] ++ ru.2.2.2)
        else bindStep evs
      else bindStep evs
  else
    (OK, v, w, evs)

/-- The head of `EmulatedVolume::doMount` (lines 162-171): store the four
sdcardfs view paths and set the internal and external paths. -/
def setupPaths (v : Volume) : Volume :=
  let label := getLabel v
  { v with
    mSdcardFsDefault := "/mnt/runtime/default/" ++ label
    mSdcardFsRead := "/mnt/runtime/read/" ++ label
    mSdcardFsWrite := "/mnt/runtime/write/" ++ label
    mSdcardFsFull := "/mnt/runtime/full/" ++ label
    internalPath := v.mRawPath
    path := "/storage/" ++ label }

/-- `EmulatedVolume::doMount`: compute and create the four sdcardfs view
directories, spawn the sdcardfs child (user 0 on sdcardfs builds) and poll
for its kernel-side effect, then the FUSE section. -/
def doMount (env : Env) (v : Volume) (w : World) : Status × Volume × World × List Event :=
  let label := getLabel v
  let v : Volume := setupPaths v
  if ¬ env.prepareDirOk v.mSdcardFsDefault then
    (-env.prepareErrno, v, w, [Event.prepareDir v.mSdcardFsDefault 448 0 0])
  else if ¬ env.prepareDirOk v.mSdcardFsRead then
    (-env.prepareErrno, v, w,
      [Event.prepareDir v.mSdcardFsDefault 448 0 0, Event.prepareDir v.mSdcardFsRead 448 0 0])
  else if ¬ env.prepareDirOk v.mSdcardFsWrite then
    (-env.prepareErrno, v, w,
      [Event.prepareDir v.mSdcardFsDefault 448 0 0, Event.prepareDir v.mSdcardFsRead 448 0 0,
       Event.prepareDir v.mSdcardFsWrite 448 0 0])
  else if ¬ env.prepareDirOk v.mSdcardFsFull then
    (-env.prepareErrno, v, w,
      [Event.prepareDir v.mSdcardFsDefault 448 0 0, Event.prepareDir v.mSdcardFsRead 448 0 0,
       Event.prepareDir v.mSdcardFsWrite 448 0 0, Event.prepareDir v.mSdcardFsFull 448 0 0])
  else
    let evs : List Event :=
      [Event.prepareDir v.mSdcardFsDefault 448 0 0, Event.prepareDir v.mSdcardFsRead 448 0 0,
       Event.prepareDir v.mSdcardFsWrite 448 0 0, Event.prepareDir v.mSdcardFsFull 448 0 0]
    let before := env.deviceIdentity 0
    if v.mUseSdcardFs = true ∧ v.mountUserId = 0 then
      if env.forkFails then
        (-env.forkErrno, v, w, evs)
      else
        let evs := evs ++ [Event.spawnSdcardFs (kSdcardFsPath :: sdcardArgs v.mRawPath label)]
        match sdcardWait env.deviceIdentity before 0 with
        | WaitResult.timedOut _ => (-ETIMEDOUT, v, w, evs)
        | WaitResult.ready _ =>
          let evs := evs ++ [Event.reapSdcardFs]
          doMountFuse env v { w with viewsMounted := true } evs
    else
      doMountFuse env v w evs

/-- Classifier: the event is a `KillProcessesUsingPath` call. -/
def isKill : Event → Prop
  | Event.killProcs _ => True
  | _ => False

/-- Classifier: the event is one of the unmounting operations
(`UnmountTree`, `UnmountUserFuse`, `ForceUnmount`). -/
def isUnmountOp : Event → Prop
  | Event.unmountTree _ => True
  | Event.unmountUserFuse _ _ _ => True
  | Event.forceUnmount _ => True
  | _ => False

/-- Classifier: the event stops the user-space bridge (`UnmountUserFuse`). -/
def isBridgeStop : Event → Prop
  | Event.unmountUserFuse _ _ _ => True
  | _ => False

/-- Classifier: the event tears down a legacy-overlay view (`ForceUnmount`). -/
def isViewTeardown : Event → Prop
  | Event.forceUnmount _ => True
  | _ => False

/-- Every event satisfying `p` occurs strictly before every event
satisfying `q` in the trace `t`. -/
def Precedes (p q : Event → Prop) (t : List Event) : Prop :=
  ∀ i j (hi : i < t.length) (hj : j < t.length),
    p (t.get ⟨i, hi⟩) → q (t.get ⟨j, hj⟩) → i < j

/-- An environment in which every external collaborator succeeds; the
device identity changes on the first poll after the sdcardfs spawn. -/
def allOkEnv : Env :=
  { accessOk := fun _ => true
    prepareDirOk := fun _ => true
    prepareErrno := 13
    bindMountStatus := fun _ _ => 0
    unmountTreeStatus := fun _ => 0
    propFuse := true
    forkFails := false
    forkErrno := 13
    deviceIdentity := fun n => n
    mountUserFuseResult := 0
    callbackReady := true
    unmountUserFuseStatus := 0
    unmountUserFuseErrno := 7 }

/-- Written from the spec's words (claim C6): the child-process argument
list it describes — uid/gid 1023 flags, multi-user mode, write-permission
mode, group-derived permission mode, ID-based resolution mode, then the
raw backing path and the resolved label. -/
def specSdcardArgs (rawPath label : String) : List String :=
  ["-u", "1023", "-g", "1023", "-m", "-w", "-G", "-i", rawPath, label]

/-- Claim C6 as amended: the source additionally passes the unshared-OBB
flag "-o" between the mode flags and the positional arguments. -/
def specSdcardArgsAmended (rawPath label : String) : List String :=
  ["-u", "1023", "-g", "1023", "-m", "-w", "-G", "-i", "-o", rawPath, label]

/-- Written from the spec's words (claim C7): primary bind source is
"/mnt/runtime/default/<label>/<userId>/Android" under sdcardfs, otherwise
"<rawPath>/<userId>/Android". -/
def specPrimarySource (v : Volume) : String :=
  if v.mUseSdcardFs then
    "/mnt/runtime/default/" ++ getLabel v ++ "/" ++ toString v.mountUserId ++ "/Android"
  else
    v.mRawPath ++ "/" ++ toString v.mountUserId ++ "/Android"

/-- Claim C7 as amended: in the non-sdcardfs case the code formats
"/%s/%d/Android", i.e. a literal slash precedes the raw path. -/
def specPrimarySourceAmended (v : Volume) : String :=
  if v.mUseSdcardFs then
    "/mnt/runtime/default/" ++ getLabel v ++ "/" ++ toString v.mountUserId ++ "/Android"
  else
    "/" ++ v.mRawPath ++ "/" ++ toString v.mountUserId ++ "/Android"

/-- Written from the spec's words (claim C7): the primary bind target
"/mnt/user/<userId>/<label>/<userId>/Android". -/
def specPrimaryTarget (v : Volume) : String :=
  "/mnt/user/" ++ toString v.mountUserId ++ "/" ++ getLabel v ++ "/" ++
    toString v.mountUserId ++ "/Android"

/-! ## Helper lemmas -/

lemma sdcardWait_const (dev : Nat → Nat) (h : ∀ n, dev n = dev 0) :
    ∀ j k, k + j = 100 → sdcardWait dev (dev 0) k = WaitResult.timedOut 101 := by
  intro j
  induction j with
  | zero =>
    intro k hk
    rw [sdcardWait]
    have hk' : k = 100 := by omega
    subst hk'
    simp [h 101]
  | succ m ih =>
    intro k hk
    rw [sdcardWait]
    have h1 : ¬ (50 * (k + 1) > 5000) := by omega
    simp [h (k + 1), h1]
    exact ih (k + 1) (by omega)

lemma sdcardWait_timeout (dev : Nat → Nat) (h : ∀ n, dev n = dev 0) :
    sdcardWait dev (dev 0) 0 = WaitResult.timedOut 101 :=
  sdcardWait_const dev h 100 0 rfl

lemma precedes_of_no_p {p q : Event → Prop} {t : List Event}
    (h : ∀ e ∈ t, ¬ p e) : Precedes p q t := by
  intro i j hi hj hp _
  exact absurd hp (h _ (List.get_mem t _ _))

lemma precedes_of_no_q {p q : Event → Prop} {t : List Event}
    (h : ∀ e ∈ t, ¬ q e) : Precedes p q t := by
  intro i j hi hj _ hq
  exact absurd hq (h _ (List.get_mem t _ _))

lemma precedes_append {p q : Event → Prop} {A B : List Event}
    (hA : ∀ e ∈ A, ¬ q e) (hB : ∀ e ∈ B, ¬ p e) : Precedes p q (A ++ B) := by
  intro i j hi hj hp hq
  have hiA : i < A.length := by
    by_contra hc
    push_neg at hc
    have hm : (A ++ B).get ⟨i, hi⟩ ∈ B := by
      rw [List.get_eq_getElem, List.getElem_append_right hc]
      exact List.getElem_mem _
    exact hB _ hm hp
  have hjB : A.length ≤ j := by
    by_contra hc
    push_neg at hc
    have hm : (A ++ B).get ⟨j, hj⟩ ∈ A := by
      rw [List.get_eq_getElem, List.getElem_append_left hc]
      exact List.getElem_mem _
    exact hA _ hm hq
  omega

/-- The installer bind target (under "/mnt/installer/") and the primary
bind target (under "/mnt/user/") are distinct strings for every volume. -/
lemma installerTarget_ne_androidTarget (v : Volume) :
    installerTargetPath v ≠ androidTargetPath v := by
  intro h
  have hd := congrArg String.data h
  simp only [installerTargetPath, androidTargetPath, String.data_append] at hd
  simp at hd

lemma append_ne_empty (s t : String) (h : s.data ≠ []) : (s ++ t) ≠ "" := by
  intro he
  have hd := congrArg String.data he
  simp only [String.data_append] at hd
  simp only [List.append_eq_nil] at hd
  exact h hd.1

@[simp] lemma setupPaths_default (v : Volume) :
    (setupPaths v).mSdcardFsDefault = "/mnt/runtime/default/" ++ getLabel v := rfl

@[simp] lemma setupPaths_read (v : Volume) :
    (setupPaths v).mSdcardFsRead = "/mnt/runtime/read/" ++ getLabel v := rfl

@[simp] lemma setupPaths_write (v : Volume) :
    (setupPaths v).mSdcardFsWrite = "/mnt/runtime/write/" ++ getLabel v := rfl

@[simp] lemma setupPaths_full (v : Volume) :
    (setupPaths v).mSdcardFsFull = "/mnt/runtime/full/" ++ getLabel v := rfl

@[simp] lemma setupPaths_path (v : Volume) :
    (setupPaths v).path = "/storage/" ++ getLabel v := rfl

@[simp] lemma setupPaths_internalPath (v : Volume) :
    (setupPaths v).internalPath = v.mRawPath := rfl

@[simp] lemma setupPaths_mRawPath (v : Volume) : (setupPaths v).mRawPath = v.mRawPath := rfl

@[simp] lemma setupPaths_mLabel (v : Volume) : (setupPaths v).mLabel = v.mLabel := rfl

@[simp] lemma setupPaths_mFuseMounted (v : Volume) :
    (setupPaths v).mFuseMounted = v.mFuseMounted := rfl

@[simp] lemma setupPaths_mUseSdcardFs (v : Volume) :
    (setupPaths v).mUseSdcardFs = v.mUseSdcardFs := rfl

@[simp] lemma setupPaths_mountFlags (v : Volume) :
    (setupPaths v).mountFlags = v.mountFlags := rfl

@[simp] lemma setupPaths_mountUserId (v : Volume) :
    (setupPaths v).mountUserId = v.mountUserId := rfl

@[simp] lemma setupPaths_hasCallback (v : Volume) :
    (setupPaths v).hasCallback = v.hasCallback := rfl

@[simp] lemma setupPaths_label (v : Volume) : getLabel (setupPaths v) = getLabel v := rfl

/-- The FUSE section of `doMount` leaves the stored sdcardfs view paths of
its argument volume unchanged whenever it returns `OK`. -/
lemma doMountFuse_ok_paths (env : Env) (v : Volume) (w : World) (evs : List Event)
    (hm : (doMountFuse env v w evs).1 = OK) :
    (doMountFuse env v w evs).2.1.mSdcardFsDefault = v.mSdcardFsDefault ∧
    (doMountFuse env v w evs).2.1.mSdcardFsRead = v.mSdcardFsRead ∧
    (doMountFuse env v w evs).2.1.mSdcardFsWrite = v.mSdcardFsWrite ∧
    (doMountFuse env v w evs).2.1.mSdcardFsFull = v.mSdcardFsFull := by
  by_cases hfv : env.propFuse = true ∧ v.mountFlags &&& kVisible ≠ 0
  · by_cases hmf : env.mountUserFuseResult = 0
    · by_cases hcb : v.hasCallback = true
      · by_cases hcr : env.callbackReady = false
        · simp [doMountFuse, hfv, hmf, hcb, hcr, OK, EIO] at hm
        · simp only [doMountFuse] at hm ⊢
          simp [hfv, hmf, hcb, hcr] at hm ⊢
          split at hm
          · simp_all [OK]
          · simp_all
      · simp only [doMountFuse] at hm ⊢
        simp [hfv, hmf, hcb] at hm ⊢
        split at hm
        · simp_all [OK]
        · simp_all
    · simp [doMountFuse, hfv, hmf, OK] at hm
  · simp [doMountFuse, hfv]

/-- A `doMount` that returns `OK` yields a volume whose four stored view
paths are exactly the strings computed at mount start. -/
lemma doMount_ok_paths (env : Env) (v : Volume) (w : World)
    (hm : (doMount env v w).1 = OK) :
    (doMount env v w).2.1.mSdcardFsDefault = "/mnt/runtime/default/" ++ getLabel v ∧
    (doMount env v w).2.1.mSdcardFsRead = "/mnt/runtime/read/" ++ getLabel v ∧
    (doMount env v w).2.1.mSdcardFsWrite = "/mnt/runtime/write/" ++ getLabel v ∧
    (doMount env v w).2.1.mSdcardFsFull = "/mnt/runtime/full/" ++ getLabel v := by
  by_cases h1 : env.prepareDirOk ("/mnt/runtime/default/" ++ getLabel v) = true
  · by_cases h2 : env.prepareDirOk ("/mnt/runtime/read/" ++ getLabel v) = true
    · by_cases h3 : env.prepareDirOk ("/mnt/runtime/write/" ++ getLabel v) = true
      · by_cases h4 : env.prepareDirOk ("/mnt/runtime/full/" ++ getLabel v) = true
        · by_cases hsd : v.mUseSdcardFs = true ∧ v.mountUserId = 0
          · by_cases hfk : env.forkFails = true
            · simp [doMount, h1, h2, h3, h4, hsd, hfk]
            · rcases hwres : sdcardWait env.deviceIdentity (env.deviceIdentity 0) 0 with k | k
              · have hm2 : (doMount env v w).1 = (doMountFuse env (setupPaths v)
                    { w with viewsMounted := true }
                    [Event.prepareDir ("/mnt/runtime/default/" ++ getLabel v) 448 0 0,
                     Event.prepareDir ("/mnt/runtime/read/" ++ getLabel v) 448 0 0,
                     Event.prepareDir ("/mnt/runtime/write/" ++ getLabel v) 448 0 0,
                     Event.prepareDir ("/mnt/runtime/full/" ++ getLabel v) 448 0 0,
                     Event.spawnSdcardFs
                       (kSdcardFsPath :: sdcardArgs v.mRawPath (getLabel v)),
                     Event.reapSdcardFs]).1 := by
                  simp [doMount, h1, h2, h3, h4, hsd, hfk, hwres]
                rw [hm2] at hm
                have hp := doMountFuse_ok_paths _ _ _ _ hm
                simp only [setupPaths_default, setupPaths_read, setupPaths_write,
                  setupPaths_full] at hp
                simp [doMount, h1, h2, h3, h4, hsd, hfk, hwres, hp]
              · simp [doMount, h1, h2, h3, h4, hsd, hfk, hwres, ETIMEDOUT, OK] at hm
          · have hm2 : (doMount env v w).1 = (doMountFuse env (setupPaths v) w
                [Event.prepareDir ("/mnt/runtime/default/" ++ getLabel v) 448 0 0,
                 Event.prepareDir ("/mnt/runtime/read/" ++ getLabel v) 448 0 0,
                 Event.prepareDir ("/mnt/runtime/write/" ++ getLabel v) 448 0 0,
                 Event.prepareDir ("/mnt/runtime/full/" ++ getLabel v) 448 0 0]).1 := by
              simp [doMount, h1, h2, h3, h4, hsd]
            rw [hm2] at hm
            have hp := doMountFuse_ok_paths _ _ _ _ hm
            simp only [setupPaths_default, setupPaths_read, setupPaths_write,
              setupPaths_full] at hp
            simp [doMount, h1, h2, h3, h4, hsd, hp]
        · simp [doMount, h1, h2, h3, h4]
      · simp [doMount, h1, h2, h3]
    · simp [doMount, h1, h2]
  · simp [doMount, h1]

/-- A `doUnmount` that returns `OK` (with a positive errno oracle) clears
the four stored view paths exactly when the caller is the owning user-0
context on an sdcardfs build, and leaves them unchanged otherwise. -/
lemma doUnmount_paths (env : Env) (v : Volume) (w : World)
    (hu : (doUnmount env v w).1 = OK) (he : 0 < env.unmountUserFuseErrno) :
    ((v.mountUserId = 0 ∧ v.mUseSdcardFs = true) →
      (doUnmount env v w).2.1.mSdcardFsDefault = "" ∧
      (doUnmount env v w).2.1.mSdcardFsRead = "" ∧
      (doUnmount env v w).2.1.mSdcardFsWrite = "" ∧
      (doUnmount env v w).2.1.mSdcardFsFull = "") ∧
    (¬ (v.mountUserId = 0 ∧ v.mUseSdcardFs = true) →
      (doUnmount env v w).2.1.mSdcardFsDefault = v.mSdcardFsDefault ∧
      (doUnmount env v w).2.1.mSdcardFsRead = v.mSdcardFsRead ∧
      (doUnmount env v w).2.1.mSdcardFsWrite = v.mSdcardFsWrite ∧
      (doUnmount env v w).2.1.mSdcardFsFull = v.mSdcardFsFull) := by
  by_cases hc : v.mountUserId = 0 ∧ v.mUseSdcardFs = true
  · have hc2 : ¬ (v.mountUserId ≠ 0 ∨ v.mUseSdcardFs = false) := by simp [hc.1, hc.2]
    by_cases hf : v.mFuseMounted = true
    · by_cases huf : env.unmountUserFuseStatus = OK
      · simp [doUnmount, doUnmountSdcard, unmountFuseBindMounts, hf, huf, hc, hc2]
      · have huf0 : ¬ env.unmountUserFuseStatus = 0 := by simpa [OK] using huf
        simp [doUnmount, unmountFuseBindMounts, hf, huf0, OK] at hu
        exact absurd hu (ne_of_gt he)
    · simp [doUnmount, doUnmountSdcard, unmountFuseBindMounts, hf, hc, hc2]
  · have hc2 : v.mountUserId ≠ 0 ∨ v.mUseSdcardFs = false := by
      by_cases h0 : v.mountUserId = 0
      · right
        rcases not_and_or.mp hc with h | h
        · exact absurd h0 h
        · simpa using h
      · exact Or.inl h0
    by_cases hf : v.mFuseMounted = true
    · by_cases huf : env.unmountUserFuseStatus = OK
      · simp [doUnmount, doUnmountSdcard, unmountFuseBindMounts, hf, huf, hc, hc2]
      · have huf0 : ¬ env.unmountUserFuseStatus = 0 := by simpa [OK] using huf
        simp [doUnmount, unmountFuseBindMounts, hf, huf0, OK] at hu
        exact absurd hu (ne_of_gt he)
    · simp [doUnmount, doUnmountSdcard, unmountFuseBindMounts, hf, hc, hc2]

/-- Every event of the trace passed into the FUSE section of `doMount`
remains in the trace it returns. -/
lemma doMountFuse_mem (env : Env) (v : Volume) (w : World) (evs : List Event)
    (e : Event) (he : e ∈ evs) : e ∈ (doMountFuse env v w evs).2.2.2 := by
  by_cases hfv : env.propFuse = true ∧ v.mountFlags &&& kVisible ≠ 0
  · by_cases hmf : env.mountUserFuseResult = 0
    · by_cases hcb : v.hasCallback = true
      · by_cases hcr : env.callbackReady = false
        · simp [doMountFuse, hfv, hmf, hcb, hcr, he]
        · simp only [doMountFuse] at *
          simp [hfv, hmf, hcb, hcr]
          split <;> simp [he]
      · simp only [doMountFuse] at *
        simp [hfv, hmf, hcb]
        split <;> simp [he]
    · simp [doMountFuse, hfv, hmf, he]
  · simp [doMountFuse, hfv, he]

/-! ## Claim theorems -/

/-- Claim C2: whenever `mount()` spawns the sdcardfs child (sdcardfs
enabled, user 0, fork succeeds) and the queried device identity of the
"full" view never differs from the identity recorded before the spawn,
`doMount` returns `-ETIMEDOUT`; the spin wait performs exactly 101 sleeps
of 50ms (5050ms, which exceeds the 5000ms bound by at most one polling
interval), so the call does not hang; and the trace contains the spawn of
the child but no event that kills it (no `KillProcessesUsingPath` call,
and not even the reap that the success path performs). -/
theorem C2_timeout (env : Env) (v : Volume) (w : World)
    (hs : v.mUseSdcardFs = true) (hz : v.mountUserId = 0)
    (hp : ∀ s, env.prepareDirOk s = true) (hfk : env.forkFails = false)
    (hdev : ∀ n, env.deviceIdentity n = env.deviceIdentity 0) :
    (doMount env v w).1 = -ETIMEDOUT ∧
    sdcardWait env.deviceIdentity (env.deviceIdentity 0) 0 = WaitResult.timedOut 101 ∧
    50 * 101 > 5000 ∧ 50 * 101 ≤ 5000 + 50 ∧
    (∀ p, Event.killProcs p ∉ (doMount env v w).2.2.2) ∧
    Event.reapSdcardFs ∉ (doMount env v w).2.2.2 ∧
    Event.spawnSdcardFs (kSdcardFsPath :: sdcardArgs v.mRawPath (getLabel v)) ∈
      (doMount env v w).2.2.2 := by
  have hw := sdcardWait_timeout env.deviceIdentity hdev
  simp [doMount, setupPaths, hs, hz, hp, hfk, hw]

/-- Claim C2, witness: the theorem applied at a concrete user-0 sdcardfs
volume in an environment whose device-identity query never changes. -/
theorem C2_witness :
    (emulatedVolume "/data/media" 0 true).mUseSdcardFs = true ∧
    (emulatedVolume "/data/media" 0 true).mountUserId = 0 ∧
    (∀ s, ({ allOkEnv with deviceIdentity := fun _ => 7 } : Env).prepareDirOk s = true) ∧
    ({ allOkEnv with deviceIdentity := fun _ => 7 } : Env).forkFails = false ∧
    (∀ n, ({ allOkEnv with deviceIdentity := fun _ => 7 } : Env).deviceIdentity n =
      ({ allOkEnv with deviceIdentity := fun _ => 7 } : Env).deviceIdentity 0) ∧
    (doMount { allOkEnv with deviceIdentity := fun _ => 7 }
      (emulatedVolume "/data/media" 0 true) World.empty).1 = -ETIMEDOUT :=
  ⟨rfl, by decide, fun s => rfl, rfl, fun n => rfl,
    (C2_timeout _ _ World.empty rfl (by decide) (fun s => rfl) rfl (fun n => rfl)).1⟩

/-- Claim C4, counterexample: the claim's "if and only if" fails on the
code.  The constructor `EmulatedVolume(rawPath, userId)` stores the label
"emulated"; with the primary mount flag clear, `getLabel` returns the
fixed literal "emulated" even though the primary flag is not set. -/
theorem C4_counterexample :
    getLabel (emulatedVolume "/data/media" 0 true) = "emulated" ∧
    (emulatedVolume "/data/media" 0 true).mountFlags &&& kPrimary = 0 := by
  decide

/-- Claim C4, amended: `getLabel` returns "emulated" when the primary
mount flag is set and otherwise returns the stored label; it is a pure
function of (stored label, primary flag) only — independent of all other
volume state; and the claimed "iff" holds whenever the stored label is not
itself "emulated". -/
theorem C4_amended :
    (∀ v : Volume, getLabel v = if v.mountFlags &&& kPrimary ≠ 0 then "emulated" else v.mLabel) ∧
    (∀ v v' : Volume, v.mLabel = v'.mLabel →
      (v.mountFlags &&& kPrimary = 0 ↔ v'.mountFlags &&& kPrimary = 0) →
      getLabel v = getLabel v') ∧
    (∀ v : Volume, v.mLabel ≠ "emulated" →
      (getLabel v = "emulated" ↔ v.mountFlags &&& kPrimary ≠ 0)) := by
  refine ⟨fun v => rfl, fun v v' hl hp => ?_, fun v hl => ?_⟩
  · unfold getLabel
    by_cases h : v.mountFlags &&& kPrimary = 0
    · rw [if_neg (by simp [h]), if_neg (by simp [hp.mp h]), hl]
    · rw [if_pos h, if_pos (by intro hc; exact h (hp.mpr hc))]
  · unfold getLabel
    by_cases h : v.mountFlags &&& kPrimary = 0
    · rw [if_neg (by simp [h])]
      simp [h, hl]
    · rw [if_pos h]
      simp [h]

/-- Claim C4, witness: the amended theorem applied at concrete volumes
(two volumes sharing label and primary bit, and a UUID-labelled volume). -/
theorem C4_amended_witness :
    ((emulatedVolume "/data/media" 0 true).mLabel =
      (emulatedVolume "/other" 7 false).mLabel) ∧
    getLabel (emulatedVolume "/data/media" 0 true) =
      getLabel (emulatedVolume "/other" 7 false) ∧
    (emulatedVolumeUuid "/data" "1234-ABCD" 5 false).mLabel ≠ "emulated" ∧
    (getLabel (emulatedVolumeUuid "/data" "1234-ABCD" 5 false) = "emulated" ↔
      (emulatedVolumeUuid "/data" "1234-ABCD" 5 false).mountFlags &&& kPrimary ≠ 0) :=
  ⟨by decide,
    C4_amended.2.1 _ _ (by decide) (by decide),
    by decide,
    C4_amended.2.2 _ (by decide)⟩

/-- Claim C5: in every `doUnmount` trace, the kill-processes step (scoped
to the per-user subpath when the bridge is mounted, otherwise the whole
volume path) is the first event and precedes every unmounting operation;
the installer bind-mount teardown precedes the primary bind-mount
teardown; and the bridge stop precedes every legacy-overlay view
teardown. -/
theorem C5_unmount_ordering (env : Env) (v : Volume) (w : World) :
    (doUnmount env v w).2.2.2.head? = some (Event.killProcs
      (if v.mFuseMounted then v.path ++ "/" ++ toString v.mountUserId else v.path)) ∧
    Precedes isKill isUnmountOp (doUnmount env v w).2.2.2 ∧
    Precedes (fun e => e = Event.unmountTree (installerTargetPath v))
      (fun e => e = Event.unmountTree (androidTargetPath v)) (doUnmount env v w).2.2.2 ∧
    Precedes isBridgeStop isViewTeardown (doUnmount env v w).2.2.2 := by
  have hne := installerTarget_ne_androidTarget v
  cases hf : v.mFuseMounted with
  | false =>
    by_cases ht : v.mountUserId ≠ 0 ∨ v.mUseSdcardFs = false
    · simp only [doUnmount, doUnmountSdcard, hf, Bool.false_eq_true, if_false, if_pos ht]
      refine ⟨rfl, ?_, ?_, ?_⟩
      · exact precedes_of_no_q (by simp [isUnmountOp])
      · exact precedes_of_no_p (by simp)
      · exact precedes_of_no_p (by simp [isBridgeStop])
    · simp only [doUnmount, doUnmountSdcard, hf, Bool.false_eq_true, if_false, if_neg ht]
      refine ⟨rfl, ?_, ?_, ?_⟩
      · exact precedes_append (A := [_]) (by simp [isUnmountOp]) (by simp [isKill])
      · exact precedes_of_no_p (by simp)
      · exact precedes_of_no_p (by simp [isBridgeStop])
  | true =>
    by_cases hs : v.mUseSdcardFs = true
    · by_cases hu : env.unmountUserFuseStatus = OK
      · by_cases hz : v.mountUserId = 0
        · simp [doUnmount, unmountFuseBindMounts, doUnmountSdcard, hf, hs, hu, hz]
          refine ⟨?_, ?_, ?_⟩
          · exact precedes_append (A := [_]) (by simp [isUnmountOp]) (by simp [isKill])
          · exact precedes_append (A := [_, _]) (by simp [hne]) (by simp [hne.symm])
          · exact precedes_append (A := [_, _, _, _]) (by simp [isViewTeardown])
              (by simp [isBridgeStop])
        · simp [doUnmount, unmountFuseBindMounts, doUnmountSdcard, hf, hs, hu, hz]
          refine ⟨?_, ?_, ?_⟩
          · exact precedes_append (A := [_]) (by simp [isUnmountOp]) (by simp [isKill])
          · exact precedes_append (A := [_, _]) (by simp [hne]) (by simp [hne.symm])
          · exact precedes_of_no_q (by simp [isViewTeardown])
      · simp [doUnmount, unmountFuseBindMounts, doUnmountSdcard, hf, hs, hu]
        refine ⟨?_, ?_, ?_⟩
        · exact precedes_append (A := [_]) (by simp [isUnmountOp]) (by simp [isKill])
        · exact precedes_append (A := [_, _]) (by simp [hne]) (by simp [hne.symm])
        · exact precedes_of_no_q (by simp [isViewTeardown])
    · by_cases hu : env.unmountUserFuseStatus = OK
      · simp [doUnmount, unmountFuseBindMounts, doUnmountSdcard, hf, hs, hu]
        refine ⟨?_, ?_, ?_⟩
        · exact precedes_append (A := [_]) (by simp [isUnmountOp]) (by simp [isKill])
        · exact precedes_of_no_p (by simp [hne.symm])
        · exact precedes_of_no_q (by simp [isViewTeardown])
      · simp [doUnmount, unmountFuseBindMounts, doUnmountSdcard, hf, hs, hu]
        refine ⟨?_, ?_, ?_⟩
        · exact precedes_append (A := [_]) (by simp [isUnmountOp]) (by simp [isKill])
        · exact precedes_of_no_p (by simp [hne.symm])
        · exact precedes_of_no_q (by simp [isViewTeardown])

/-- Claim C8: if the bridge is mounted and `UnmountUserFuse` fails,
`doUnmount` returns the OS-level error `-errno`, leaves the volume state
completely unchanged (so the bridge-mounted flag stays `true` and the four
stored view paths are untouched), leaves the views and the bridge in the
mount table as they were, and performs no legacy-overlay view teardown. -/
theorem C8_bridge_stop_failure (env : Env) (v : Volume) (w : World)
    (hf : v.mFuseMounted = true) (hu : env.unmountUserFuseStatus ≠ OK) :
    (doUnmount env v w).1 = -env.unmountUserFuseErrno ∧
    (doUnmount env v w).2.1 = v ∧
    (doUnmount env v w).2.2.1.viewsMounted = w.viewsMounted ∧
    (doUnmount env v w).2.2.1.bridgeMounted = w.bridgeMounted ∧
    (∀ p, Event.forceUnmount p ∉ (doUnmount env v w).2.2.2) ∧
    (∀ p, Event.rmdir p ∉ (doUnmount env v w).2.2.2) := by
  by_cases hi : v.mUseSdcardFs = true ∧ env.unmountTreeStatus (installerTargetPath v) = OK <;>
    by_cases hpk : env.unmountTreeStatus (androidTargetPath v) = OK <;>
    simp [doUnmount, unmountFuseBindMounts, hf, hu, hi, hpk]

/-- Claim C8, witness: the theorem applied at a concrete bridge-mounted
volume whose `UnmountUserFuse` oracle fails with errno 19. -/
theorem C8_witness :
    ({ emulatedVolume "/data/media" 0 true with mFuseMounted := true } : Volume).mFuseMounted
      = true ∧
    ({ allOkEnv with unmountUserFuseStatus := -19, unmountUserFuseErrno := 19 } :
      Env).unmountUserFuseStatus ≠ OK ∧
    (doUnmount { allOkEnv with unmountUserFuseStatus := -19, unmountUserFuseErrno := 19 }
      { emulatedVolume "/data/media" 0 true with mFuseMounted := true }
      World.empty).1 = -19 :=
  ⟨rfl, by decide,
    (C8_bridge_stop_failure _ _ World.empty rfl (by decide)).1⟩

/-- Claim C9: `doUnmount` on an instance that is not bridge-mounted and
whose owned mount-table entries are absent (never mounted, or already
fully unmounted) returns success, leaves the mount table unchanged, and
keeps the bridge-mounted flag `false`. -/
theorem C9_unmount_idempotent (env : Env) (v : Volume) (w : World)
    (hf : v.mFuseMounted = false) (hv : w.viewsMounted = false) :
    (doUnmount env v w).1 = OK ∧
    (doUnmount env v w).2.2.1 = w ∧
    (doUnmount env v w).2.1.mFuseMounted = false := by
  have hw : { w with viewsMounted := false } = w := by
    cases w
    simp_all
  by_cases hc : v.mountUserId ≠ 0 ∨ v.mUseSdcardFs = false
  · simp [doUnmount, doUnmountSdcard, hf, hc]
  · simp [doUnmount, doUnmountSdcard, hf, hc, hw, hv]

/-- Claim C9, witness: the theorem applied to a freshly constructed (never
mounted) volume over the empty mount table. -/
theorem C9_witness :
    (emulatedVolume "/data/media" 0 true).mFuseMounted = false ∧
    World.empty.viewsMounted = false ∧
    (doUnmount allOkEnv (emulatedVolume "/data/media" 0 true) World.empty).1 = OK :=
  ⟨rfl, rfl, (C9_unmount_idempotent _ _ _ rfl rfl).1⟩

/-- Claim C10: during `doUnmount` with the bridge mounted, a failure of the
primary bind-mount teardown does not abort the teardown: its status is
discarded (the primary bind mount stays in the table), the bridge stop is
still attempted, and when the bridge stop succeeds `doUnmount` returns
success with the bridge-mounted flag cleared. -/
theorem C10_bind_teardown_discarded (env : Env) (v : Volume) (w : World)
    (hf : v.mFuseMounted = true)
    (hb : env.unmountTreeStatus (androidTargetPath v) ≠ OK)
    (hu : env.unmountUserFuseStatus = OK) :
    (doUnmount env v w).1 = OK ∧
    (doUnmount env v w).2.1.mFuseMounted = false ∧
    (doUnmount env v w).2.2.1.primaryBind = w.primaryBind ∧
    Event.unmountUserFuse v.mountUserId v.internalPath (getLabel v) ∈
      (doUnmount env v w).2.2.2 := by
  by_cases hc : v.mountUserId ≠ 0 ∨ v.mUseSdcardFs = false
  · simp [doUnmount, unmountFuseBindMounts, doUnmountSdcard, hf, hb, hu, hc, apply_ite]
  · simp [doUnmount, unmountFuseBindMounts, doUnmountSdcard, hf, hb, hu, hc, apply_ite]

/-- Claim C10, witness: the theorem applied at a concrete bridge-mounted
volume whose primary bind teardown fails while the bridge stop succeeds. -/
theorem C10_witness :
    ({ emulatedVolume "/data/media" 0 true with mFuseMounted := true } : Volume).mFuseMounted
      = true ∧
    ({ allOkEnv with unmountTreeStatus := fun _ => -16 } : Env).unmountTreeStatus
      (androidTargetPath { emulatedVolume "/data/media" 0 true with mFuseMounted := true })
      ≠ OK ∧
    (doUnmount { allOkEnv with unmountTreeStatus := fun _ => -16 }
      { emulatedVolume "/data/media" 0 true with mFuseMounted := true }
      World.empty).1 = OK :=
  ⟨rfl, by decide,
    (C10_bind_teardown_discarded _ _ World.empty rfl (by decide) rfl).1⟩


/-- Claim C1, counterexample: with the bridge applicable (FUSE property on,
volume visible), bridge started and marked active, and the registered
callback reporting not-ready, on a user-0 sdcardfs volume `doMount`
returns `- EIO` as claimed — but contrary to the claim the legacy-overlay
views mounted in this attempt do NOT remain mounted: the rollback
`doUnmount` force-unmounts them (the trace's reap event witnesses that the
overlay had taken effect in this attempt, and the final mount table has
`viewsMounted = false`). -/
theorem C1_counterexample :
    (doMount { allOkEnv with callbackReady := false }
      { emulatedVolume "/data/media" 0 true with mountFlags := kVisible, hasCallback := true }
      World.empty).1 = - EIO ∧
    Event.reapSdcardFs ∈ (doMount { allOkEnv with callbackReady := false }
      { emulatedVolume "/data/media" 0 true with mountFlags := kVisible, hasCallback := true }
      World.empty).2.2.2 ∧
    (doMount { allOkEnv with callbackReady := false }
      { emulatedVolume "/data/media" 0 true with mountFlags := kVisible, hasCallback := true }
      World.empty).2.2.1.viewsMounted = false := by
  simp [doMount, doMountFuse, doUnmount, doUnmountSdcard, unmountFuseBindMounts, setupPaths,
    sdcardWait, allOkEnv, emulatedVolume, World.empty, getLabel, kVisible, kPrimary, EIO, OK]

/-- Claim C1, amended: when the bridge is applicable, started and marked
active, and the readiness callback reports not-ready, `doMount` releases
the handle, rolls back through `doUnmount` and returns `- EIO`; afterwards
the bridge is inactive and no bind mounts were established.  The
legacy-overlay views, however, do not simply "remain mounted": in the
owning context (user 0 with sdcardfs) the rollback also unmounts them,
while in a non-owning context they are left untouched. -/
theorem C1_amended (env : Env) (v : Volume) (w : World)
    (hfuse : env.propFuse = true) (hvis : v.mountFlags &&& kVisible ≠ 0)
    (hmf : env.mountUserFuseResult = 0) (hcb : v.hasCallback = true)
    (hnr : env.callbackReady = false)
    (hp : ∀ s, env.prepareDirOk s = true)
    (hus : env.unmountUserFuseStatus = OK)
    (hpb : w.primaryBind = false) (hib : w.installerBind = false)
    (hsd : v.mUseSdcardFs = true → v.mountUserId = 0 → env.forkFails = false ∧
      ∃ k, sdcardWait env.deviceIdentity (env.deviceIdentity 0) 0 = WaitResult.ready k) :
    (doMount env v w).1 = - EIO ∧
    (doMount env v w).2.1.mFuseMounted = false ∧
    (doMount env v w).2.2.1.bridgeMounted = false ∧
    (doMount env v w).2.2.1.primaryBind = false ∧
    (doMount env v w).2.2.1.installerBind = false ∧
    (∀ s t, Event.bindMount s t ∉ (doMount env v w).2.2.2) ∧
    Event.fdReset ∈ (doMount env v w).2.2.2 ∧
    ((v.mUseSdcardFs = true ∧ v.mountUserId = 0) →
      (doMount env v w).2.2.1.viewsMounted = false) ∧
    (¬ (v.mUseSdcardFs = true ∧ v.mountUserId = 0) →
      (doMount env v w).2.2.1.viewsMounted = w.viewsMounted) := by
  by_cases hc : v.mUseSdcardFs = true ∧ v.mountUserId = 0
  · obtain ⟨hfk, k, hk⟩ := hsd hc.1 hc.2
    by_cases hi : env.unmountTreeStatus (installerTargetPath (setupPaths v)) = OK <;>
      by_cases hpk : env.unmountTreeStatus (androidTargetPath (setupPaths v)) = OK <;>
      simp [doMount, doMountFuse, doUnmount, doUnmountSdcard, unmountFuseBindMounts,
        hc.1, hc.2, hp, hfk, hk, hfuse, hvis, hmf, hcb, hnr, hus, hpb, hib, hi, hpk]
  · have hc2 : v.mountUserId ≠ 0 ∨ v.mUseSdcardFs = false := by
      by_cases h0 : v.mountUserId = 0
      · right
        rcases not_and_or.mp hc with h | h
        · simpa using h
        · exact absurd h0 h
      · exact Or.inl h0
    by_cases hi : env.unmountTreeStatus (installerTargetPath (setupPaths v)) = OK <;>
      by_cases hpk : env.unmountTreeStatus (androidTargetPath (setupPaths v)) = OK <;>
      simp [doMount, doMountFuse, doUnmount, doUnmountSdcard, unmountFuseBindMounts,
        hc, hc2, hp, hfuse, hvis, hmf, hcb, hnr, hus, hpb, hib, hi, hpk]

/-- Claim C1, witness: the amended theorem applied at the same concrete
user-0 sdcardfs configuration used by the counterexample. -/
theorem C1_witness :
    (∃ k, sdcardWait ({ allOkEnv with callbackReady := false } : Env).deviceIdentity
      (({ allOkEnv with callbackReady := false } : Env).deviceIdentity 0) 0 =
        WaitResult.ready k) ∧
    (doMount { allOkEnv with callbackReady := false }
      { emulatedVolume "/data/media" 0 true with mountFlags := kVisible, hasCallback := true }
      World.empty).1 = - EIO :=
  ⟨⟨0, by rw [sdcardWait]; simp [allOkEnv]⟩,
    (C1_amended _ _ _ rfl (by decide) rfl rfl rfl (fun s => rfl) rfl rfl rfl
      (fun _ _ => ⟨rfl, 0, by rw [sdcardWait]; simp [allOkEnv]⟩)).1⟩

/-- Claim C3, counterexample: a successful mount()/unmount() pair after
which the stored view paths are NOT cleared.  With sdcardfs disabled, a
user-0 volume mounts successfully (populating the four paths), unmounts
successfully, and the stored default-view path is still non-empty after
`doUnmount` returns. -/
theorem C3_counterexample :
    (doMount allOkEnv (emulatedVolume "/data/media" 0 false) World.empty).1 = OK ∧
    (doUnmount allOkEnv (doMount allOkEnv (emulatedVolume "/data/media" 0 false) World.empty).2.1
      (doMount allOkEnv (emulatedVolume "/data/media" 0 false) World.empty).2.2.1).1 = OK ∧
    (doUnmount allOkEnv (doMount allOkEnv (emulatedVolume "/data/media" 0 false) World.empty).2.1
      (doMount allOkEnv (emulatedVolume "/data/media" 0 false)
        World.empty).2.2.1).2.1.mSdcardFsDefault ≠ "" := by
  decide

/-- Claim C3, amended: after every successful `doMount` the four stored
view paths are non-empty; after a subsequent successful `doUnmount` (with
the realistic positive-errno oracle) they are cleared exactly when the
unmounting context is the owning one (user 0 with sdcardfs enabled), and
left unchanged otherwise. -/
theorem C3_amended (env env2 : Env) (v : Volume) (w w2 : World)
    (hm : (doMount env v w).1 = OK)
    (hu : (doUnmount env2 (doMount env v w).2.1 w2).1 = OK)
    (he : 0 < env2.unmountUserFuseErrno) :
    ((doMount env v w).2.1.mSdcardFsDefault ≠ "" ∧
     (doMount env v w).2.1.mSdcardFsRead ≠ "" ∧
     (doMount env v w).2.1.mSdcardFsWrite ≠ "" ∧
     (doMount env v w).2.1.mSdcardFsFull ≠ "") ∧
    (((doMount env v w).2.1.mountUserId = 0 ∧ (doMount env v w).2.1.mUseSdcardFs = true) →
      (doUnmount env2 (doMount env v w).2.1 w2).2.1.mSdcardFsDefault = "" ∧
      (doUnmount env2 (doMount env v w).2.1 w2).2.1.mSdcardFsRead = "" ∧
      (doUnmount env2 (doMount env v w).2.1 w2).2.1.mSdcardFsWrite = "" ∧
      (doUnmount env2 (doMount env v w).2.1 w2).2.1.mSdcardFsFull = "") ∧
    (¬ ((doMount env v w).2.1.mountUserId = 0 ∧ (doMount env v w).2.1.mUseSdcardFs = true) →
      (doUnmount env2 (doMount env v w).2.1 w2).2.1.mSdcardFsDefault =
        (doMount env v w).2.1.mSdcardFsDefault ∧
      (doUnmount env2 (doMount env v w).2.1 w2).2.1.mSdcardFsRead =
        (doMount env v w).2.1.mSdcardFsRead ∧
      (doUnmount env2 (doMount env v w).2.1 w2).2.1.mSdcardFsWrite =
        (doMount env v w).2.1.mSdcardFsWrite ∧
      (doUnmount env2 (doMount env v w).2.1 w2).2.1.mSdcardFsFull =
        (doMount env v w).2.1.mSdcardFsFull) := by
  have hp := doMount_ok_paths env v w hm
  have hq := doUnmount_paths env2 (doMount env v w).2.1 w2 hu he
  refine ⟨⟨?_, ?_, ?_, ?_⟩, hq.1, hq.2⟩
  · rw [hp.1]
    exact append_ne_empty _ _ (by decide)
  · rw [hp.2.1]
    exact append_ne_empty _ _ (by decide)
  · rw [hp.2.2.1]
    exact append_ne_empty _ _ (by decide)
  · rw [hp.2.2.2]
    exact append_ne_empty _ _ (by decide)

/-- Claim C3, witness: the amended theorem applied to a concrete
successful mount()/unmount() pair of a non-sdcardfs volume. -/
theorem C3_witness :
    (doMount allOkEnv (emulatedVolume "/data/media" 5 false) World.empty).1 = OK ∧
    (doUnmount allOkEnv (doMount allOkEnv (emulatedVolume "/data/media" 5 false) World.empty).2.1
      World.empty).1 = OK ∧
    0 < allOkEnv.unmountUserFuseErrno ∧
    (doMount allOkEnv (emulatedVolume "/data/media" 5 false) World.empty).2.1.mSdcardFsDefault
      ≠ "" :=
  ⟨by decide, by decide, by decide,
    (C3_amended allOkEnv allOkEnv (emulatedVolume "/data/media" 5 false) World.empty World.empty
      (by decide) (by decide) (by decide)).1.1⟩

/-- Claim C6, counterexample: on a concrete user-0 sdcardfs volume the
spawned child's argument list is the source's `sdcardArgs`, which differs
from the list the claim describes: the code also passes the "-o"
(unshared-OBB) flag between "-i" and the positional arguments. -/
theorem C6_counterexample :
    Event.spawnSdcardFs (kSdcardFsPath :: sdcardArgs "/data/media" "emulated") ∈
      (doMount { allOkEnv with propFuse := false }
        (emulatedVolume "/data/media" 0 true) World.empty).2.2.2 ∧
    sdcardArgs "/data/media" "emulated" ≠ specSdcardArgs "/data/media" "emulated" := by
  constructor
  · simp [doMount, setupPaths, allOkEnv, emulatedVolume, getLabel, kPrimary, doMountFuse,
      sdcardWait, World.empty]
  · decide

/-- Claim C6, amended: the child's argument list is exactly the claim's
list with the additional "-o" flag, and whenever `doMount` spawns the
child (sdcardfs enabled, user 0, fork succeeds) the spawn event carries
exactly that list (with the program path duplicated as `argv[0]`),
followed by the raw backing path and the resolved label. -/
theorem C6_amended :
    (∀ rawPath label, sdcardArgs rawPath label = specSdcardArgsAmended rawPath label) ∧
    (∀ (env : Env) (v : Volume) (w : World), v.mUseSdcardFs = true → v.mountUserId = 0 →
      (∀ s, env.prepareDirOk s = true) → env.forkFails = false →
      Event.spawnSdcardFs (kSdcardFsPath :: sdcardArgs v.mRawPath (getLabel v)) ∈
        (doMount env v w).2.2.2) := by
  refine ⟨fun rawPath label => rfl, fun env v w hs hz hp hfk => ?_⟩
  rcases hwres : sdcardWait env.deviceIdentity (env.deviceIdentity 0) 0 with k | k
  · have := doMountFuse_mem env (setupPaths v) { w with viewsMounted := true }
      ([Event.prepareDir ("/mnt/runtime/default/" ++ getLabel v) 448 0 0,
        Event.prepareDir ("/mnt/runtime/read/" ++ getLabel v) 448 0 0,
        Event.prepareDir ("/mnt/runtime/write/" ++ getLabel v) 448 0 0,
        Event.prepareDir ("/mnt/runtime/full/" ++ getLabel v) 448 0 0] ++
        [Event.spawnSdcardFs (kSdcardFsPath :: sdcardArgs v.mRawPath (getLabel v)),
         Event.reapSdcardFs])
      (Event.spawnSdcardFs (kSdcardFsPath :: sdcardArgs v.mRawPath (getLabel v))) (by simp)
    simp [doMount, hs, hz, hp, hfk, hwres]
    simpa using this
  · simp [doMount, hs, hz, hp, hfk, hwres]

/-- Claim C6, witness: the amended theorem applied at a concrete user-0
sdcardfs volume. -/
theorem C6_witness :
    (emulatedVolume "/data/media" 0 true).mUseSdcardFs = true ∧
    (emulatedVolume "/data/media" 0 true).mountUserId = 0 ∧
    Event.spawnSdcardFs (kSdcardFsPath ::
        sdcardArgs (emulatedVolume "/data/media" 0 true).mRawPath
          (getLabel (emulatedVolume "/data/media" 0 true))) ∈
      (doMount allOkEnv (emulatedVolume "/data/media" 0 true) World.empty).2.2.2 :=
  ⟨rfl, by decide,
    C6_amended.2 allOkEnv (emulatedVolume "/data/media" 0 true) World.empty rfl (by decide)
      (fun s => rfl) rfl⟩

/-- Claim C7, counterexample: with sdcardfs not in use, the primary bind
source the code computes is "//data/media/0/Android" (the format string
prepends a slash to the raw path), not the claim's
"<rawPath>/<userId>/Android" = "/data/media/0/Android"; the bind-mount
event with the code's source is in the `mountFuseBindMounts` trace. -/
theorem C7_counterexample :
    Event.bindMount (androidSourcePath (emulatedVolume "/data/media" 0 false))
        (androidTargetPath (emulatedVolume "/data/media" 0 false)) ∈
      (mountFuseBindMounts allOkEnv (emulatedVolume "/data/media" 0 false) World.empty).2.2 ∧
    androidSourcePath (emulatedVolume "/data/media" 0 false) = "//data/media/0/Android" ∧
    specPrimarySource (emulatedVolume "/data/media" 0 false) = "/data/media/0/Android" ∧
    androidSourcePath (emulatedVolume "/data/media" 0 false) ≠
      specPrimarySource (emulatedVolume "/data/media" 0 false) := by
  decide

/-- Claim C7, amended: the primary bind source equals the claim's path in
the sdcardfs case and "/<rawPath>/<userId>/Android" (with the literal
leading slash) otherwise; the target is exactly
"/mnt/user/<userId>/<label>/<userId>/Android"; and every bind mount
`mountFuseBindMounts` establishes is either the primary bind with these
paths or the installer bind with its paths. -/
theorem C7_amended :
    (∀ v : Volume, androidSourcePath v = specPrimarySourceAmended v) ∧
    (∀ v : Volume, androidTargetPath v = specPrimaryTarget v) ∧
    (∀ (env : Env) (v : Volume) (w : World) (s t : String),
      Event.bindMount s t ∈ (mountFuseBindMounts env v w).2.2 →
      (s = androidSourcePath v ∧ t = androidTargetPath v) ∨
      (s = installerSourcePath v ∧ t = installerTargetPath v)) := by
  refine ⟨fun v => rfl, fun v => rfl, fun env v w s t hmem => ?_⟩
  revert hmem
  simp only [mountFuseBindMounts, doFuseBindMount]
  repeat' split
  all_goals intro hmem
  all_goals simp_all

/-- Claim C7, witness: the amended theorem applied to the concrete primary
bind-mount event of a non-sdcardfs volume. -/
theorem C7_witness :
    Event.bindMount (androidSourcePath (emulatedVolume "/data/media" 0 false))
        (androidTargetPath (emulatedVolume "/data/media" 0 false)) ∈
      (mountFuseBindMounts allOkEnv (emulatedVolume "/data/media" 0 false) World.empty).2.2 ∧
    ((androidSourcePath (emulatedVolume "/data/media" 0 false) =
        androidSourcePath (emulatedVolume "/data/media" 0 false) ∧
      androidTargetPath (emulatedVolume "/data/media" 0 false) =
        androidTargetPath (emulatedVolume "/data/media" 0 false)) ∨
     (androidSourcePath (emulatedVolume "/data/media" 0 false) =
        installerSourcePath (emulatedVolume "/data/media" 0 false) ∧
      androidTargetPath (emulatedVolume "/data/media" 0 false) =
        installerTargetPath (emulatedVolume "/data/media" 0 false))) :=
  ⟨by decide,
    C7_amended.2.2 allOkEnv (emulatedVolume "/data/media" 0 false) World.empty _ _ (by decide)⟩

end Vold
